import Mathlib

/-
Verification of the ball-mill control application (TECO E510 inverter driver
plus milling-session control layer).

The definitions below are a shallow embedding of the Python source
`teco_e510_inverter_app.py`.  Times and frequencies are rationals, Python
`round` is modelled as round-half-to-even (`pyRound`), device register writes
are recorded explicitly as `RegWrite` values, and an exception raised by a
device write is modelled by an `Option String` argument (`none` = the write
succeeded, `some e` = the write raised exception text `e`, which the
surrounding `try/except` turns into an error message).
-/

/-- Python `round(x)`: round half to even (banker's rounding). -/
def pyRound (q : ℚ) : ℤ :=
  if q - ⌊q⌋ < 1/2 then ⌊q⌋
  else if 1/2 < q - ⌊q⌋ then ⌊q⌋ + 1
  else if ⌊q⌋ % 2 = 0 then ⌊q⌋ else ⌊q⌋ + 1

/-- Python `round(x, ndigits=1)`. -/
def pyRound1 (q : ℚ) : ℚ := (pyRound (10 * q) : ℚ) / 10

/-- Python `round(x, 3)`, used for the progress ratio in `mill_period`. -/
def pyRound3 (q : ℚ) : ℚ := (pyRound (1000 * q) : ℚ) / 1000

/-- One Modbus single-register write: register address and raw register value. -/
structure RegWrite where
  address : ℕ
  value : ℤ
deriving DecidableEq

/-- Frequency-command register 0x2502 (`TECO_E510_Inverter.set_frequency`). -/
def FREQ_CMD_REG : ℕ := 0x2502

/-- Operation-mode register 0x2501 (`TECO_E510_Inverter.set_operation`). -/
def OPER_CMD_REG : ℕ := 0x2501

def invalid_operation_msg : String := "Invalid operation mode. Must be 0, 1, 2, or 3."

/-- `TECO_E510_Inverter.set_frequency`: a single-register write at 0x2502 with
two implied decimals (minimalmodbus scales the value by 100 and rounds). -/
def set_frequency (frequency : ℚ) : RegWrite :=
  ⟨FREQ_CMD_REG, pyRound (frequency * 100)⟩

/-- `TECO_E510_Inverter.set_operation`: the mode is validated before any write;
an invalid mode raises `ValueError` and no register write is produced. -/
def set_operation (operation : ℤ) : Except String RegWrite :=
  if operation = 0 ∨ operation = 1 ∨ operation = 2 ∨ operation = 3 then
    Except.ok ⟨OPER_CMD_REG, operation⟩
  else Except.error invalid_operation_msg

/-- Register writes produced by a `set_operation` call (none on the error path). -/
def operation_writes : Except String RegWrite → List RegWrite
  | Except.ok w => [w]
  | Except.error _ => []

/-- Motor nameplate data used by the conversion pass: rated (base) frequency
`vfd_maxfreq` in Hz and the pole count read from register 02-07. -/
structure MotorNameplate where
  rated : ℚ
  poles : ℤ
deriving DecidableEq

/-- `read_motor_info` / `set_drive_frequency`:
`motor_maxrpm = round(120*(vfd_maxfreq/motor_poles))`. -/
def motor_max_rpm (np : MotorNameplate) : ℤ :=
  pyRound (120 * (np.rated / (np.poles : ℚ)))

/-- `set_drive_frequency`, case 1 (control by mill vessel RPM):
`shaft_rpm = round(vessel_rpm*(mill_dia/shaft_dia))`. -/
def shaft_rpm_from_vessel_rpm (vessel_rpm : ℤ) (mill_dia shaft_dia : ℚ) : ℤ :=
  pyRound ((vessel_rpm : ℚ) * (mill_dia / shaft_dia))

/-- `set_drive_frequency`, cases 1 and 2:
`vfd_freq = round((shaft_rpm/motor_maxrpm)*vfd_maxfreq, ndigits=1)`. -/
def freq_from_shaft_rpm (shaft_rpm : ℤ) (np : MotorNameplate) : ℚ :=
  pyRound1 (((shaft_rpm : ℚ) / (motor_max_rpm np : ℚ)) * np.rated)

/-- `set_drive_frequency`, case 3 (control by VFD frequency):
`shaft_rpm = round(motor_maxrpm*(vfd_freq/vfd_maxfreq))`. -/
def shaft_rpm_from_freq (freq : ℚ) (np : MotorNameplate) : ℤ :=
  pyRound ((motor_max_rpm np : ℚ) * (freq / np.rated))

/-- The whole case-1 conversion pass of `set_drive_frequency`: vessel RPM in,
commanded VFD frequency out. -/
def vessel_mode_frequency (vessel_rpm : ℤ) (mill_dia shaft_dia : ℚ)
    (np : MotorNameplate) : ℚ :=
  freq_from_shaft_rpm (shaft_rpm_from_vessel_rpm vessel_rpm mill_dia shaft_dia) np

/-- Outcome of the frequency-command tail of `set_drive_frequency`: either one
register write was issued, or the value was rejected as out of range. -/
inductive FreqCommandResult where
  | written (w : RegWrite)
  | outOfRange
deriving DecidableEq

/-- Register writes issued by a frequency command. -/
def freq_writes : FreqCommandResult → List RegWrite
  | FreqCommandResult.written w => [w]
  | FreqCommandResult.outOfRange => []

/-- Tail of `set_drive_frequency`: `if 0.0 <= frequency <= vfd_maxfreq` guards
the single `set_frequency` write; otherwise an out-of-range message is shown
and nothing is written. -/
def issue_frequency_command (frequency vfd_maxfreq : ℚ) : FreqCommandResult :=
  if 0 ≤ frequency ∧ frequency ≤ vfd_maxfreq then
    FreqCommandResult.written (set_frequency frequency)
  else FreqCommandResult.outOfRange

/-- Combined application/device state relevant to the milling session.
`running` is the device operation bit (register 0x2520 bit 0) as observed by
`sample_data`; `startTime`, `stopTime`, `totalTime` are the globals
`mill_start_time`, `mill_stop_time`, `mill_total_time` (seconds);
`editLocked` summarises the duration/direction/geometry edit locks engaged by
`run_motor` and released by `stop_motor`; `paused` is `pause_var = RESTART`;
`elapsedDisp` and `remainDisp` are the values behind `time_elapsed_var` and
`time_remain_var` in seconds, before hh:mm:ss formatting (the formatting
truncates to whole seconds); `message` is `message_var`. -/
structure MillState where
  running : Bool
  startTime : ℚ
  stopTime : ℚ
  totalTime : ℚ
  editLocked : Bool
  paused : Bool
  progress : ℚ
  elapsedDisp : ℚ
  remainDisp : ℚ
  message : String
deriving DecidableEq

def manual_stop_msg : String := "STOPPED. Motor stopped."

def completed_msg : String := "STOPPED. Milling process completed."

def paused_msg : String := "PAUSED. Motor stopped. Click RESTART button to continue."

def restart_msg : String := "RUNNING. Motor restarted after pause event."

def stop_error_msg (e : String) : String := "ERROR on motor STOP command: " ++ e

def run_error_msg (e : String) : String := "ERROR on motor RUN command: " ++ e

def pause_error_msg (e : String) : String := "ERROR on motor PAUSE command: " ++ e

def sampling_error_msg (e : String) : String := "ERROR sampling data: " ++ e

def running_msg (dir : ℤ) : String :=
  "RUNNING. Rotation: " ++ (if dir = 0 then "Forward (CCW)" else "Reverse (CW)")

/-- State effect of `BallMillControl.stop_motor` when connected: the stop write
is the first statement of its `try` block, so on failure (`some e`) nothing
but the error message changes; on success the motor stops, the manual-stop
message is shown and the duration/direction/geometry edit locks are released. -/
def stop_motor_effect (writeErr : Option String) (s : MillState) : MillState :=
  match writeErr with
  | none => { s with running := false, editLocked := false, message := manual_stop_msg }
  | some e => { s with message := stop_error_msg e }

/-- `BallMillControl.stop_motor`: guarded by `if self.inverter`; when
disconnected it silently does nothing at all. -/
def stop_motor (connected : Bool) (writeErr : Option String) (dir : ℤ)
    (s : MillState) : MillState × List RegWrite :=
  if connected then
    match set_operation dir with
    | Except.ok w => (stop_motor_effect writeErr s, [w])
    | Except.error e => ({ s with message := stop_error_msg e }, [])
  else (s, [])

/-- `BallMillControl.run_motor`: when connected it first engages the edit
locks and initialises the mill duration globals, then issues the run write;
when disconnected it silently does nothing. -/
def run_motor (connected : Bool) (writeErr : Option String) (now : ℚ)
    (dir hours minutes : ℤ) (s : MillState) : MillState × List RegWrite :=
  if connected then
    match set_operation (1 + dir) with
    | Except.ok w =>
      match writeErr with
      | none =>
        ({ s with editLocked := true,
                  totalTime := 3600 * hours + 60 * minutes,
                  startTime := now,
                  stopTime := now + (3600 * hours + 60 * minutes),
                  running := true,
                  message := running_msg dir }, [w])
      | some e =>
        ({ s with editLocked := true,
                  totalTime := 3600 * hours + 60 * minutes,
                  startTime := now,
                  stopTime := now + (3600 * hours + 60 * minutes),
                  message := run_error_msg e }, [w])
    | Except.error e =>
      ({ s with editLocked := true,
                totalTime := 3600 * hours + 60 * minutes,
                startTime := now,
                stopTime := now + (3600 * hours + 60 * minutes),
                message := run_error_msg e }, [])
  else (s, [])

/-- `BallMillControl.pause_motor`: dispatches on `pause_var`.  The RESTART
branch recomputes `mill_start_time = now - elapsed` and
`mill_stop_time = now + remaining` from the frozen hh:mm:ss displays (parsing
the display truncates to whole seconds, hence the floors) and re-issues the
run command; the PAUSE branch issues the stop write and freezes the session.
When disconnected it silently does nothing. -/
def pause_motor (connected : Bool) (writeErr : Option String) (now : ℚ)
    (dir : ℤ) (s : MillState) : MillState × List RegWrite :=
  if connected then
    if s.paused then
      match set_operation (1 + dir) with
      | Except.ok w =>
        match writeErr with
        | none =>
          ({ s with paused := false,
                    startTime := now - (⌊s.elapsedDisp⌋ : ℚ),
                    stopTime := now + (⌊s.remainDisp⌋ : ℚ),
                    running := true,
                    message := restart_msg }, [w])
        | some e =>
          ({ s with paused := false,
                    startTime := now - (⌊s.elapsedDisp⌋ : ℚ),
                    stopTime := now + (⌊s.remainDisp⌋ : ℚ),
                    message := pause_error_msg e }, [w])
      | Except.error e =>
        ({ s with paused := false,
                  startTime := now - (⌊s.elapsedDisp⌋ : ℚ),
                  stopTime := now + (⌊s.remainDisp⌋ : ℚ),
                  message := pause_error_msg e }, [])
    else
      match set_operation dir with
      | Except.ok w =>
        match writeErr with
        | none =>
          ({ s with running := false, paused := true, message := paused_msg }, [w])
        | some e => ({ s with message := pause_error_msg e }, [w])
      | Except.error e => ({ s with message := pause_error_msg e }, [])
  else (s, [])

/-- `BallMillControl.mill_period`: computes the progress ratio
`round(elapsed/total, 3)`; at ratio >= 1 it performs the manual-stop effect,
forces progress to 1, elapsed to the total duration, remaining to 00:00:00 and
shows the completion message; otherwise it refreshes the displays, with the
remaining time biased upward by one second before formatting. -/
def mill_period (writeErr : Option String) (now : ℚ) (s : MillState) : MillState :=
  if 1 ≤ pyRound3 ((now - s.startTime) / s.totalTime) then
    { stop_motor_effect writeErr s with
        progress := 1,
        elapsedDisp := s.totalTime,
        remainDisp := 0,
        message := completed_msg }
  else
    { s with progress := pyRound3 ((now - s.startTime) / s.totalTime),
             elapsedDisp := now - s.startTime,
             remainDisp := s.stopTime - now + 1 }

/-- One successful status poll (`sample_data` with a good read): `mill_period`
runs only while the device reports the run bit (`operation == 1`). -/
def poll_tick (writeErr : Option String) (now : ℚ) (s : MillState) : MillState :=
  if s.running then mill_period writeErr now s else s

/-- `BallMillControl.sample_data`: the whole body is wrapped in
`try/except`, so a failed status read only sets the transient error message
and the session state is untouched. -/
def sample_data (read : Except String Unit) (now : ℚ) (s : MillState) : MillState :=
  match read with
  | Except.error e => { s with message := sampling_error_msg e }
  | Except.ok _ => poll_tick none now s

/-- The polling loop (`start_sampling` rescheduling itself every 200 ms):
a total fold over the scheduled ticks, so no cycle outcome can abort it. -/
def poll_loop : List (Except String Unit × ℚ) → MillState → MillState
  | [], s => s
  | (r, t) :: rest, s => poll_loop rest (sample_data r t s)

/-- Whether a poll at time `now` triggers the automatic stop of `mill_period`. -/
def auto_fires (now : ℚ) (s : MillState) : Bool :=
  s.running && decide (1 ≤ pyRound3 ((now - s.startTime) / s.totalTime))

/-- Number of poll ticks in the trace that trigger the automatic stop. -/
def auto_stop_count (writeErr : Option String) : MillState → List ℚ → ℕ
  | _, [] => 0
  | s, t :: ts =>
    (if auto_fires t s then 1 else 0) + auto_stop_count writeErr (poll_tick writeErr t s) ts

/-- A disconnected state used to exhibit the silent no-op command paths. -/
def idle_state : MillState :=
  { running := false, startTime := 0, stopTime := 0, totalTime := 0,
    editLocked := false, paused := false, progress := 0,
    elapsedDisp := 0, remainDisp := 0, message := "---" }

/-- A running session: started at time 0, duration 10 seconds. -/
def c2_state : MillState :=
  { running := true, startTime := 0, stopTime := 10, totalTime := 10,
    editLocked := true, paused := false, progress := 0,
    elapsedDisp := 0, remainDisp := 0, message := "RUNNING. Rotation: Forward (CCW)" }

/-- A paused session: duration 100 s, paused with the displays last refreshed
at time 30.5. -/
def c3_state : MillState :=
  { running := false, startTime := 0, stopTime := 100, totalTime := 100,
    editLocked := true, paused := true, progress := 0,
    elapsedDisp := 30.5, remainDisp := 70.5, message := paused_msg }

/-- A running session: started at time 0, duration 10 seconds. -/
def c10_state : MillState :=
  { running := true, startTime := 0, stopTime := 10, totalTime := 10,
    editLocked := true, paused := false, progress := 0,
    elapsedDisp := 0, remainDisp := 0, message := "RUNNING. Rotation: Forward (CCW)" }

/-! ### Properties of the rounding functions -/

theorem pyRound_sub_abs_le (q : ℚ) : |(pyRound q : ℚ) - q| ≤ 1/2 := by
  have h0 : (⌊q⌋ : ℚ) ≤ q := Int.floor_le q
  have h1 : q < ⌊q⌋ + 1 := Int.lt_floor_add_one q
  unfold pyRound
  split_ifs with ha hb hc
  · rw [abs_le]
    constructor <;> linarith
  · rw [not_lt] at ha
    rw [abs_le]
    constructor <;> · push_cast; linarith
  · rw [not_lt] at ha
    rw [not_lt] at hb
    rw [abs_le]
    constructor <;> linarith
  · rw [not_lt] at ha
    rw [not_lt] at hb
    rw [abs_le]
    constructor <;> · push_cast; linarith

theorem pyRound_le_add_half (q : ℚ) : (pyRound q : ℚ) ≤ q + 1/2 := by
  have h := pyRound_sub_abs_le q
  rw [abs_le] at h
  linarith [h.2]

theorem floor_le_pyRound (q : ℚ) : ⌊q⌋ ≤ pyRound q := by
  unfold pyRound
  split_ifs <;> omega

theorem pyRound_zero : pyRound 0 = 0 := by with_unfolding_all decide

theorem pyRound1_sub_abs_le (q : ℚ) : |pyRound1 q - q| ≤ 1/20 := by
  have h := pyRound_sub_abs_le (10 * q)
  rw [abs_le] at h
  unfold pyRound1
  rw [abs_le]
  constructor <;> linarith [h.1, h.2]

theorem one_le_pyRound3 {x : ℚ} (h : 1 ≤ x) : 1 ≤ pyRound3 x := by
  unfold pyRound3
  rw [le_div_iff₀ (by norm_num : (0:ℚ) < 1000)]
  have h1 : (1000:ℤ) ≤ ⌊1000 * x⌋ := Int.le_floor.mpr (by push_cast; linarith)
  have h2 : ⌊1000 * x⌋ ≤ pyRound (1000 * x) := floor_le_pyRound _
  have h3 : (1000:ℚ) ≤ (pyRound (1000 * x) : ℚ) := by exact_mod_cast le_trans h1 h2
  linarith

/-! ### Claim theorems -/

/-- Claim C1: the frequency value computed by the `set_drive_frequency` path is
rejected with the out-of-range outcome (and no register write) whenever it lies
outside [0, rated frequency]; for any value inside the interval, including both
boundaries, exactly one single-register write of the value (scaled by 100 for
the two implied decimals) is issued at register 0x2502. -/
theorem frequency_command_gate (f maxf : ℚ) :
    (0 ≤ f ∧ f ≤ maxf →
      issue_frequency_command f maxf =
        FreqCommandResult.written ⟨FREQ_CMD_REG, pyRound (f * 100)⟩ ∧
      freq_writes (issue_frequency_command f maxf) =
        [⟨FREQ_CMD_REG, pyRound (f * 100)⟩]) ∧
    (¬(0 ≤ f ∧ f ≤ maxf) →
      issue_frequency_command f maxf = FreqCommandResult.outOfRange ∧
      freq_writes (issue_frequency_command f maxf) = []) := by
  constructor <;> intro h
  · have hc : issue_frequency_command f maxf =
        FreqCommandResult.written ⟨FREQ_CMD_REG, pyRound (f * 100)⟩ := by
      unfold issue_frequency_command set_frequency
      rw [if_pos h]
    exact ⟨hc, by rw [hc]; rfl⟩
  · have hc : issue_frequency_command f maxf = FreqCommandResult.outOfRange := by
      unfold issue_frequency_command
      rw [if_neg h]
    exact ⟨hc, by rw [hc]; rfl⟩

/-- Witness for C1: at rated frequency 50 Hz, the in-range command 23.9 Hz
produces exactly the single register write ⟨0x2502, 2390⟩, the boundary values
0 and 50 produce their writes, and 60 Hz is rejected with no write. -/
theorem frequency_command_gate_witness :
    (issue_frequency_command 23.9 50 =
        FreqCommandResult.written ⟨FREQ_CMD_REG, pyRound ((23.9 : ℚ) * 100)⟩ ∧
      freq_writes (issue_frequency_command 23.9 50) =
        [⟨FREQ_CMD_REG, pyRound ((23.9 : ℚ) * 100)⟩]) ∧
    (issue_frequency_command 0 50 =
        FreqCommandResult.written ⟨FREQ_CMD_REG, pyRound ((0 : ℚ) * 100)⟩) ∧
    (issue_frequency_command 50 50 =
        FreqCommandResult.written ⟨FREQ_CMD_REG, pyRound ((50 : ℚ) * 100)⟩) ∧
    (issue_frequency_command 60 50 = FreqCommandResult.outOfRange ∧
      freq_writes (issue_frequency_command 60 50) = []) :=
  ⟨(frequency_command_gate 23.9 50).1 (by norm_num),
    ((frequency_command_gate 0 50).1 (by norm_num)).1,
    ((frequency_command_gate 50 50).1 (by norm_num)).1,
    (frequency_command_gate 60 50).2 (by norm_num)⟩

/-- Claim C9: `set_operation` accepts exactly the modes 0, 1, 2, 3, issuing the
single register write at 0x2501; any other mode fails with the invalid-argument
error before any I/O, so no register write is produced. -/
theorem operation_mode_guard (op : ℤ) :
    (op = 0 ∨ op = 1 ∨ op = 2 ∨ op = 3 →
      set_operation op = Except.ok ⟨OPER_CMD_REG, op⟩ ∧
      operation_writes (set_operation op) = [⟨OPER_CMD_REG, op⟩]) ∧
    (¬(op = 0 ∨ op = 1 ∨ op = 2 ∨ op = 3) →
      set_operation op = Except.error invalid_operation_msg ∧
      operation_writes (set_operation op) = []) := by
  constructor <;> intro h
  · have hc : set_operation op = Except.ok ⟨OPER_CMD_REG, op⟩ := by
      unfold set_operation
      rw [if_pos h]
    exact ⟨hc, by rw [hc]; rfl⟩
  · have hc : set_operation op = Except.error invalid_operation_msg := by
      unfold set_operation
      rw [if_neg h]
    exact ⟨hc, by rw [hc]; rfl⟩

/-- Witness for C9: mode 1 (run forward) is accepted with its single write;
mode 5 is rejected with the invalid-argument error and no write. -/
theorem operation_mode_guard_witness :
    (set_operation 1 = Except.ok ⟨OPER_CMD_REG, 1⟩ ∧
      operation_writes (set_operation 1) = [⟨OPER_CMD_REG, 1⟩]) ∧
    (set_operation 5 = Except.error invalid_operation_msg ∧
      operation_writes (set_operation 5) = []) :=
  ⟨(operation_mode_guard 1).1 (by norm_num),
    (operation_mode_guard 5).2 (by norm_num)⟩

/-- Counterexample for C4: in the concrete scenario (rated 50 Hz, 8 poles,
vessel diameter 220 mm, shaft diameter 45.4 mm, vessel RPM 74) the code
computes shaft_rpm = round(74 × 220/45.4) = round(358.59...) = 359, not the
358 stated in the specification. -/
theorem vessel_scenario_shaft_rpm_counterexample :
    shaft_rpm_from_vessel_rpm 74 220 45.4 = 359 ∧
    shaft_rpm_from_vessel_rpm 74 220 45.4 ≠ 358 := by
  with_unfolding_all decide

/-- Claim C4 (amended): the conversion pass computes
`motor_max_rpm = round(120 × rated/poles)`,
`shaft_rpm = round(vessel_rpm × vessel_dia/shaft_dia)` and
`frequency = round((shaft_rpm/motor_max_rpm) × rated, 1)`; with rated 50 Hz,
8 poles, vessel diameter 220 mm, shaft diameter 45.4 mm and vessel RPM 74,
this yields motor_max_rpm = 750, shaft_rpm = 359 and frequency = 23.9 Hz. -/
theorem vessel_conversion_pass (v : ℤ) (md sd : ℚ) (np : MotorNameplate) :
    motor_max_rpm np = pyRound (120 * (np.rated / (np.poles : ℚ))) ∧
    shaft_rpm_from_vessel_rpm v md sd = pyRound ((v : ℚ) * (md / sd)) ∧
    vessel_mode_frequency v md sd np =
      pyRound1 (((shaft_rpm_from_vessel_rpm v md sd : ℚ) / (motor_max_rpm np : ℚ)) *
        np.rated) ∧
    motor_max_rpm ⟨50, 8⟩ = 750 ∧
    shaft_rpm_from_vessel_rpm 74 220 45.4 = 359 ∧
    vessel_mode_frequency 74 220 45.4 ⟨50, 8⟩ = 23.9 :=
  ⟨rfl, rfl, rfl, by with_unfolding_all decide, by with_unfolding_all decide,
    by with_unfolding_all decide⟩

/-- Counterexample for C5: with no device connected, the Run, Pause and Stop
commands are silent no-ops — the state (including the message field, still
"---") is returned unchanged and no device I/O occurs, so no `NotConnected`
failure is ever reported. -/
theorem disconnected_commands_report_nothing :
    run_motor false none 0 0 2 0 idle_state = (idle_state, []) ∧
    stop_motor false none 0 idle_state = (idle_state, []) ∧
    pause_motor false none 0 0 idle_state = (idle_state, []) ∧
    (run_motor false none 0 0 2 0 idle_state).1.message = "---" ∧
    (stop_motor false none 0 idle_state).1.message = "---" ∧
    (pause_motor false none 0 0 idle_state).1.message = "---" := by
  with_unfolding_all decide

/-- Claim C5 (amended): every Run, Pause or Stop command attempted while no
device is connected performs no device I/O and leaves the whole session state
(message included) unchanged; it is silently ignored rather than failing with
a `NotConnected` error. -/
theorem disconnected_commands_no_io (writeErr : Option String) (now : ℚ)
    (dir hours minutes : ℤ) (s : MillState) :
    run_motor false writeErr now dir hours minutes s = (s, []) ∧
    stop_motor false writeErr dir s = (s, []) ∧
    pause_motor false writeErr now dir s = (s, []) :=
  ⟨rfl, rfl, rfl⟩

/-- Claim C6: a poll cycle whose status read fails only sets the transient
error message — the session state (run bit, start/stop/total timing, pause
flag, edit locks) is unchanged — and the polling loop, being a total fold over
its scheduled ticks, continues with the remaining ticks. -/
theorem failed_poll_preserves_session (e : String) (now : ℚ) (s : MillState)
    (rest : List (Except String Unit × ℚ)) :
    (sample_data (Except.error e) now s).running = s.running ∧
    (sample_data (Except.error e) now s).startTime = s.startTime ∧
    (sample_data (Except.error e) now s).stopTime = s.stopTime ∧
    (sample_data (Except.error e) now s).totalTime = s.totalTime ∧
    (sample_data (Except.error e) now s).paused = s.paused ∧
    (sample_data (Except.error e) now s).editLocked = s.editLocked ∧
    (sample_data (Except.error e) now s).message = sampling_error_msg e ∧
    poll_loop ((Except.error e, now) :: rest) s =
      poll_loop rest (sample_data (Except.error e) now s) :=
  ⟨rfl, rfl, rfl, rfl, rfl, rfl, rfl, rfl⟩

/-- Claim C3: restarting a paused session re-reads the frozen elapsed display
`e` and remaining display `r` (whole seconds, because the hh:mm:ss formatting
truncated them), sets `mill_start_time = now - e` and `mill_stop_time = now + r`,
re-issues the run command, and the resulting session span `stop - start = e + r`
equals the configured total duration to within one second. -/
theorem restart_preserves_total_duration (s : MillState) (now t : ℚ)
    (total dir : ℤ) (hdir : dir = 0 ∨ dir = 2) (hpaused : s.paused = true)
    (he : s.elapsedDisp = t - s.startTime)
    (hr : s.remainDisp = s.stopTime - t + 1)
    (hstop : s.stopTime = s.startTime + total) :
    (pause_motor true none now dir s).1.startTime = now - (⌊s.elapsedDisp⌋ : ℚ) ∧
    (pause_motor true none now dir s).1.stopTime = now + (⌊s.remainDisp⌋ : ℚ) ∧
    (pause_motor true none now dir s).1.running = true ∧
    (pause_motor true none now dir s).2 = [⟨OPER_CMD_REG, 1 + dir⟩] ∧
    (total : ℚ) ≤ (pause_motor true none now dir s).1.stopTime -
      (pause_motor true none now dir s).1.startTime ∧
    (pause_motor true none now dir s).1.stopTime -
      (pause_motor true none now dir s).1.startTime ≤ (total : ℚ) + 1 := by
  have hw : set_operation (1 + dir) = Except.ok ⟨OPER_CMD_REG, 1 + dir⟩ := by
    rcases hdir with rfl | rfl <;> rfl
  have hres : pause_motor true none now dir s =
      ({ s with paused := false, running := true,
                startTime := now - (⌊s.elapsedDisp⌋ : ℚ),
                stopTime := now + (⌊s.remainDisp⌋ : ℚ),
                message := restart_msg }, [⟨OPER_CMD_REG, 1 + dir⟩]) := by
    simp [pause_motor, hpaused, hw]
  have hrem : ⌊s.remainDisp⌋ = (total + 1) + ⌊-(t - s.startTime)⌋ := by
    have hx : s.remainDisp = ((total + 1 : ℤ) : ℚ) + (-(t - s.startTime)) := by
      rw [hr, hstop]
      push_cast
      ring
    rw [hx, Int.floor_int_add]
  have hkey : total ≤ ⌊s.elapsedDisp⌋ + ⌊s.remainDisp⌋ ∧
      ⌊s.elapsedDisp⌋ + ⌊s.remainDisp⌋ ≤ total + 1 := by
    have h4 : ⌈t - s.startTime⌉ ≤ ⌊t - s.startTime⌋ + 1 := Int.ceil_le_floor_add_one _
    have h5 : ⌊t - s.startTime⌋ ≤ ⌈t - s.startTime⌉ := Int.floor_le_ceil _
    rw [he, hrem, Int.floor_neg]
    omega
  have hk1 : ((total : ℚ)) ≤ (⌊s.elapsedDisp⌋ : ℚ) + (⌊s.remainDisp⌋ : ℚ) := by
    exact_mod_cast hkey.1
  have hk2 : (⌊s.elapsedDisp⌋ : ℚ) + (⌊s.remainDisp⌋ : ℚ) ≤ (total : ℚ) + 1 := by
    exact_mod_cast hkey.2
  rw [hres]
  refine ⟨rfl, rfl, rfl, rfl, ?_, ?_⟩
  · dsimp only
    linarith
  · dsimp only
    linarith

/-- Witness for C3: a 100-second session paused with displays last refreshed
at t = 30.5 s (elapsed display 30.5 s, remaining display 70.5 s, both shown
truncated to 30 and 70 seconds) restarted at time 200 gives start 170 and
stop 270, a span of 100 seconds, within one second of the configured total. -/
theorem restart_preserves_total_duration_witness :
    (pause_motor true none 200 0 c3_state).1.startTime =
      200 - (⌊c3_state.elapsedDisp⌋ : ℚ) ∧
    (pause_motor true none 200 0 c3_state).1.stopTime =
      200 + (⌊c3_state.remainDisp⌋ : ℚ) ∧
    (pause_motor true none 200 0 c3_state).1.running = true ∧
    (pause_motor true none 200 0 c3_state).2 = [⟨OPER_CMD_REG, 1 + 0⟩] ∧
    ((100 : ℤ) : ℚ) ≤ (pause_motor true none 200 0 c3_state).1.stopTime -
      (pause_motor true none 200 0 c3_state).1.startTime ∧
    (pause_motor true none 200 0 c3_state).1.stopTime -
      (pause_motor true none 200 0 c3_state).1.startTime ≤ ((100 : ℤ) : ℚ) + 1 :=
  restart_preserves_total_duration c3_state 200 30.5 100 0 (Or.inl rfl) rfl
    (by norm_num [c3_state]) (by norm_num [c3_state]) (by norm_num [c3_state])

/-- Claim C10: on a running poll tick that does not trigger the automatic
stop, the remaining-time display value is `stop_time - now + 1` — one second
more than `stop_time - now` — before hh:mm:ss formatting; on the completion
tick the remaining display is forced to exactly zero (00:00:00). -/
theorem remaining_display_one_second_bias (s : MillState) (now : ℚ)
    (hrun : s.running = true) :
    (¬ 1 ≤ pyRound3 ((now - s.startTime) / s.totalTime) →
      (poll_tick none now s).remainDisp = s.stopTime - now + 1) ∧
    (1 ≤ pyRound3 ((now - s.startTime) / s.totalTime) →
      (poll_tick none now s).remainDisp = 0) := by
  constructor <;> intro h <;>
    simp [poll_tick, mill_period, stop_motor_effect, hrun, h]

/-- Witness for C10: for the 10-second session started at time 0, the tick at
time 3 shows remaining 10 - 3 + 1 = 8 seconds, and the tick at time 20 (past
completion) forces the remaining display to zero. -/
theorem remaining_display_one_second_bias_witness :
    (poll_tick none 3 c10_state).remainDisp = c10_state.stopTime - 3 + 1 ∧
    (poll_tick none 20 c10_state).remainDisp = 0 :=
  ⟨(remaining_display_one_second_bias c10_state 3 rfl).1
      (by with_unfolding_all decide),
    (remaining_display_one_second_bias c10_state 20 rfl).2
      (by with_unfolding_all decide)⟩

theorem auto_fires_iff (t : ℚ) (s : MillState) :
    auto_fires t s = true ↔
      s.running = true ∧ 1 ≤ pyRound3 ((t - s.startTime) / s.totalTime) := by
  simp [auto_fires]

theorem poll_tick_fire {t : ℚ} {s : MillState} (h : auto_fires t s = true) :
    poll_tick none t s =
      { stop_motor_effect none s with
          progress := 1, elapsedDisp := s.totalTime, remainDisp := 0,
          message := completed_msg } := by
  obtain ⟨h1, h2⟩ := (auto_fires_iff t s).mp h
  simp [poll_tick, mill_period, h1, h2]

theorem auto_stop_count_not_running (w : Option String) (ts : List ℚ) :
    ∀ s : MillState, s.running = false → auto_stop_count w s ts = 0 := by
  induction ts with
  | nil => intro s _; rfl
  | cons t ts ih =>
    intro s h
    have hf : auto_fires t s = false := by simp [auto_fires, h]
    have ht : poll_tick w t s = s := by simp [poll_tick, h]
    simp [auto_stop_count, hf, ht, ih s h]

theorem auto_stop_once (ts : List ℚ) :
    ∀ s : MillState, s.running = true →
      (∃ t ∈ ts, 1 ≤ pyRound3 ((t - s.startTime) / s.totalTime)) →
      auto_stop_count none s ts = 1 := by
  induction ts with
  | nil =>
    intro s _ hex
    simp at hex
  | cons t ts ih =>
    intro s hrun hex
    by_cases hf : auto_fires t s = true
    · have hstopped : (poll_tick none t s).running = false := by
        rw [poll_tick_fire hf]
        rfl
      simp [auto_stop_count, hf, auto_stop_count_not_running none ts _ hstopped]
    · have hfb : auto_fires t s = false := eq_false_of_ne_true hf
      have hcond : ¬ 1 ≤ pyRound3 ((t - s.startTime) / s.totalTime) := by
        intro hc
        exact hf ((auto_fires_iff t s).mpr ⟨hrun, hc⟩)
      have hframe : poll_tick none t s =
          { s with progress := pyRound3 ((t - s.startTime) / s.totalTime),
                   elapsedDisp := t - s.startTime,
                   remainDisp := s.stopTime - t + 1 } := by
        simp [poll_tick, mill_period, hrun, hcond]
      obtain ⟨u, humem, hucond⟩ := hex
      rcases List.mem_cons.mp humem with rfl | humem'
      · exact absurd hucond hcond
      · have hnext := ih (poll_tick none t s) (by rw [hframe]; exact hrun)
          ⟨u, humem', by rw [hframe]; exact hucond⟩
        simp [auto_stop_count, hfb, hnext]

/-- Claim C2: for a running session whose polling trace contains a tick at or
after the stop time, the automatic stop (the manual-stop effect performed by
`mill_period`) fires exactly once over the trace; on the firing tick the motor
is stopped, the edit locks are released exactly as a manual Stop would, and
the completion message shown is distinct from the manual-stop message. -/
theorem timer_expired_fires_once (s : MillState) (ts : List ℚ) (t0 : ℚ)
    (hrun : s.running = true)
    (hstop : s.stopTime = s.startTime + s.totalTime)
    (htot : 0 < s.totalTime)
    (hmem : t0 ∈ ts) (ht0 : s.stopTime ≤ t0) :
    auto_stop_count none s ts = 1 ∧
    (poll_tick none t0 s).running = false ∧
    (poll_tick none t0 s).editLocked = false ∧
    (poll_tick none t0 s).message = completed_msg ∧
    completed_msg ≠ manual_stop_msg := by
  have hratio : 1 ≤ pyRound3 ((t0 - s.startTime) / s.totalTime) := by
    apply one_le_pyRound3
    rw [le_div_iff₀ htot]
    rw [hstop] at ht0
    linarith
  have hfire : auto_fires t0 s = true := (auto_fires_iff t0 s).mpr ⟨hrun, hratio⟩
  refine ⟨auto_stop_once ts s hrun ⟨t0, hmem, hratio⟩, ?_, ?_, ?_, ?_⟩
  · rw [poll_tick_fire hfire]
    rfl
  · rw [poll_tick_fire hfire]
    rfl
  · rw [poll_tick_fire hfire]
  · intro hEq
    exact absurd (congrArg String.length hEq) (by with_unfolding_all decide)

/-- Witness for C2: the 10-second session polled at times 3, 10 and 12 stops
automatically exactly once (at the tick at time 10 = the stop time), with the
stop effect and the completion message distinct from the manual-stop text. -/
theorem timer_expired_fires_once_witness :
    auto_stop_count none c2_state [3, 10, 12] = 1 ∧
    (poll_tick none 10 c2_state).running = false ∧
    (poll_tick none 10 c2_state).editLocked = false ∧
    (poll_tick none 10 c2_state).message = completed_msg ∧
    completed_msg ≠ manual_stop_msg :=
  timer_expired_fires_once c2_state [3, 10, 12] 10 rfl
    (by norm_num [c2_state]) (by norm_num [c2_state])
    (by norm_num) (by norm_num [c2_state])

/-- Counterexample for C7: for a nameplate of 50 Hz and 2 poles
(motor_max_rpm = 3000) and the in-range shaft RPM 2, the commanded frequency
rounds to 0.0 Hz, and converting back gives shaft RPM 0 — an error of 2 RPM,
outside the claimed ±1 tolerance. -/
theorem shaft_rpm_roundtrip_counterexample :
    (0 : ℤ) ≤ 2 ∧ (2 : ℤ) ≤ motor_max_rpm ⟨50, 2⟩ ∧
    (2 : ℤ) ≤ (⟨50, 2⟩ : MotorNameplate).poles ∧
    freq_from_shaft_rpm 2 ⟨50, 2⟩ = 0 ∧
    shaft_rpm_from_freq (freq_from_shaft_rpm 2 ⟨50, 2⟩) ⟨50, 2⟩ = 0 ∧
    ¬ |shaft_rpm_from_freq (freq_from_shaft_rpm 2 ⟨50, 2⟩) ⟨50, 2⟩ - 2| ≤ 1 := by
  with_unfolding_all decide

/-- Claim C7 (amended): for any nameplate with at least 5 poles and rated
frequency at least 1 Hz, and any shaft RPM within the device range
[0, motor_max_rpm], composing the shaft-RPM-to-frequency conversion (rounded
to one decimal) with the frequency-to-shaft-RPM conversion (rounded to the
nearest integer) recovers the original shaft RPM to within ±1 RPM.  (For
smaller pole counts the 0.1 Hz frequency granularity is amplified by
motor_max_rpm/rated beyond one RPM, as the counterexample shows.) -/
theorem shaft_rpm_roundtrip_within_one (np : MotorNameplate) (s : ℤ)
    (hpole : 5 ≤ np.poles) (hrated : 1 ≤ np.rated)
    (hs0 : 0 ≤ s) (hsM : s ≤ motor_max_rpm np) :
    |shaft_rpm_from_freq (freq_from_shaft_rpm s np) np - s| ≤ 1 := by
  have hp5 : (5 : ℚ) ≤ (np.poles : ℚ) := by exact_mod_cast hpole
  have hp0 : (0 : ℚ) < (np.poles : ℚ) := by linarith
  have hr0 : (0 : ℚ) < np.rated := by linarith
  have hrne : (np.rated : ℚ) ≠ 0 := ne_of_gt hr0
  have hMub : (motor_max_rpm np : ℚ) ≤ 120 * (np.rated / (np.poles : ℚ)) + 1/2 :=
    pyRound_le_add_half _
  have hdivle : 120 * (np.rated / (np.poles : ℚ)) ≤ 24 * np.rated := by
    rw [← mul_div_assoc, div_le_iff₀ hp0]
    nlinarith [mul_nonneg hr0.le (by linarith : (0:ℚ) ≤ (np.poles : ℚ) - 5)]
  have hM24 : (motor_max_rpm np : ℚ) ≤ 24 * np.rated + 1/2 := by linarith
  by_cases hM : motor_max_rpm np = 0
  · have hs : s = 0 := le_antisymm (hM ▸ hsM) hs0
    subst hs
    have h1 : freq_from_shaft_rpm 0 np = 0 := by
      simp [freq_from_shaft_rpm, pyRound1, pyRound_zero]
    rw [h1]
    have h2 : shaft_rpm_from_freq 0 np = 0 := by
      simp [shaft_rpm_from_freq, pyRound_zero]
    rw [h2]
    simp
  · have hM1 : 1 ≤ motor_max_rpm np := by
      have hpos : (0:ℚ) < 120 * (np.rated / (np.poles : ℚ)) := by
        have := div_pos hr0 hp0
        linarith
      have hfl : (0:ℤ) ≤ ⌊120 * (np.rated / (np.poles : ℚ))⌋ :=
        Int.floor_nonneg.mpr hpos.le
      have hle : (0:ℤ) ≤ motor_max_rpm np :=
        le_trans hfl (floor_le_pyRound _)
      omega
    have hMQ : (1:ℚ) ≤ (motor_max_rpm np : ℚ) := by exact_mod_cast hM1
    have hMne : (motor_max_rpm np : ℚ) ≠ 0 := by linarith
    have hfreq : |freq_from_shaft_rpm s np -
        ((s : ℚ) / (motor_max_rpm np : ℚ)) * np.rated| ≤ 1/20 :=
      pyRound1_sub_abs_le _
    have hback : |((shaft_rpm_from_freq (freq_from_shaft_rpm s np) np : ℤ) : ℚ) -
        (motor_max_rpm np : ℚ) * (freq_from_shaft_rpm s np / np.rated)| ≤ 1/2 :=
      pyRound_sub_abs_le _
    have hid : (motor_max_rpm np : ℚ) * (freq_from_shaft_rpm s np / np.rated) -
        (s : ℚ) =
        ((motor_max_rpm np : ℚ) / np.rated) *
          (freq_from_shaft_rpm s np - ((s : ℚ) / (motor_max_rpm np : ℚ)) * np.rated) := by
      field_simp
      ring
    have hMr : (motor_max_rpm np : ℚ) / np.rated ≤ 49/2 := by
      rw [div_le_iff₀ hr0]
      linarith
    have hprod : |(motor_max_rpm np : ℚ) * (freq_from_shaft_rpm s np / np.rated) -
        (s : ℚ)| ≤ 49/40 := by
      rw [hid, abs_mul,
        abs_of_nonneg (div_nonneg (by linarith) hr0.le)]
      calc (motor_max_rpm np : ℚ) / np.rated *
            |freq_from_shaft_rpm s np - ((s : ℚ) / (motor_max_rpm np : ℚ)) * np.rated|
          ≤ (49/2) * (1/20) :=
            mul_le_mul hMr hfreq (abs_nonneg _) (by norm_num)
        _ = 49/40 := by norm_num
    have htri := abs_sub_le
      (((shaft_rpm_from_freq (freq_from_shaft_rpm s np) np : ℤ) : ℚ))
      ((motor_max_rpm np : ℚ) * (freq_from_shaft_rpm s np / np.rated))
      ((s : ℚ))
    have h2 : |((shaft_rpm_from_freq (freq_from_shaft_rpm s np) np : ℤ) : ℚ) -
        (s : ℚ)| < 2 := by linarith
    have h3 : |shaft_rpm_from_freq (freq_from_shaft_rpm s np) np - s| < 2 := by
      have hcast : (((shaft_rpm_from_freq (freq_from_shaft_rpm s np) np - s : ℤ)) : ℚ) =
          ((shaft_rpm_from_freq (freq_from_shaft_rpm s np) np : ℤ) : ℚ) - (s : ℚ) := by
        push_cast
        ring
      have h2c : |((shaft_rpm_from_freq (freq_from_shaft_rpm s np) np - s : ℤ) : ℚ)| < 2 := by
        rw [hcast]
        exact h2
      rw [← Int.cast_abs] at h2c
      exact_mod_cast h2c
    rw [abs_lt] at h3
    rw [abs_le]
    omega

/-- Witness for C7: for the real motor (50 Hz, 8 poles, motor_max_rpm = 750)
the round trip at shaft RPM 358 lands within ±1 RPM. -/
theorem shaft_rpm_roundtrip_within_one_witness :
    |shaft_rpm_from_freq (freq_from_shaft_rpm 358 ⟨50, 8⟩) ⟨50, 8⟩ - 358| ≤ 1 :=
  shaft_rpm_roundtrip_within_one ⟨50, 8⟩ 358 (by norm_num)
    (by norm_num) (by norm_num) (by with_unfolding_all decide)
